import Mathlib

/-!
Shallow embedding of parts of the LogDevice storage-node code base
(`logdevice/common/protocol/STORED_Message.cpp`,
`logdevice/server/locallogstore/RocksDBSettings.cpp`,
`logdevice/common/configuration/NodesConfig.cpp`,
`logdevice/common/CopySet.h`) together with theorems about the embedded
functions.  Machine integers are modelled as `Nat` holding the bit pattern
of the corresponding C++ value; byte streams are `List Nat` with every
element a byte value.
-/

set_option maxHeartbeats 1000000

namespace LogDevice

/-- Error codes of the `E` enum (`logdevice/common/ErrorStrings` ...) that the
embedded functions mention.  The enum itself is not part of the sources under
verification, so only the codes named in `STORED_Message.cpp` are modelled,
with every remaining code collapsed into `OTHER`.  The concrete wire codes
assigned by `toCode` are model constants: the embedded code only relies on
them being distinct. -/
inductive E where
  | OK
  | PREEMPTED
  | NOSPC
  | FAILED
  | DISABLED
  | DROPPED
  | FORWARD
  | NOTSTORAGE
  | REBUILDING
  | SHUTDOWN
  | CHECKSUM_MISMATCH
  | PROTO
  | OTHER
  deriving DecidableEq, Repr

/-- Wire code of a status value (the C++ enum is an integral type copied into
the STORED header blob). -/
def E.toCode : E → Nat
  | .OK => 0
  | .PREEMPTED => 1
  | .NOSPC => 2
  | .FAILED => 3
  | .DISABLED => 4
  | .DROPPED => 5
  | .FORWARD => 6
  | .NOTSTORAGE => 7
  | .REBUILDING => 8
  | .SHUTDOWN => 9
  | .CHECKSUM_MISMATCH => 10
  | .PROTO => 11
  | .OTHER => 12

/-- Decoding of a status wire code; codes that do not correspond to a modelled
constructor map to `OTHER`. -/
def E.ofCode : Nat → E
  | 0 => .OK
  | 1 => .PREEMPTED
  | 2 => .NOSPC
  | 3 => .FAILED
  | 4 => .DISABLED
  | 5 => .DROPPED
  | 6 => .FORWARD
  | 7 => .NOTSTORAGE
  | 8 => .REBUILDING
  | 9 => .SHUTDOWN
  | 10 => .CHECKSUM_MISMATCH
  | 11 => .PROTO
  | _ => .OTHER

theorem E.ofCode_toCode (e : E) : E.ofCode e.toCode = e := by
  cases e <;> rfl

theorem E.toCode_lt (e : E) : e.toCode < 2 ^ 16 := by
  cases e <;> decide

/-- ShardID (`logdevice/common/ShardID.h`, not under verification sources):
a pair of a node index and a shard index, each a 16-bit value stored here as
its bit pattern.  Modelled from the spec: the default-constructed ShardID is
the all-ones (-1, -1) sentinel and is the only invalid kind of value used by
the embedded code. -/
structure ShardID where
  node : Nat
  shard : Nat
  deriving DecidableEq, Repr

/-- Bit pattern of the int16 value -1. -/
def int16_minus_one : Nat := 65535

/-- Default-constructed (invalid) ShardID. -/
def ShardID.invalid : ShardID := ⟨int16_minus_one, int16_minus_one⟩

/-- Validity test of a ShardID: it is not the -1 sentinel. -/
def ShardID.isValid (s : ShardID) : Bool :=
  s.node != int16_minus_one

/-- Little-endian encoding of the low `w` bytes of `v`. -/
def toLE : Nat → Nat → List Nat
  | 0, _ => []
  | w + 1, v => v % 256 :: toLE w (v / 256)

/-- Value of a little-endian byte list. -/
def fromLE : List Nat → Nat
  | [] => 0
  | b :: bs => b + 256 * fromLE bs

/-- Read `w` bytes from the front of a stream, returning the decoded value and
the remaining stream; `none` when the stream is too short (the
`ProtocolReader` error state). -/
def readN (w : Nat) (s : List Nat) : Option (Nat × List Nat) :=
  if s.length < w then none
  else some (fromLE (s.take w), s.drop w)

theorem toLE_length (w v : Nat) : (toLE w v).length = w := by
  induction w generalizing v with
  | zero => rfl
  | succ w ih => simp [toLE, ih]

theorem fromLE_toLE (w v : Nat) (h : v < 256 ^ w) : fromLE (toLE w v) = v := by
  induction w generalizing v with
  | zero =>
    simp [toLE, fromLE]
    omega
  | succ w ih =>
    have hdiv : v / 256 < 256 ^ w := by
      rw [Nat.div_lt_iff_lt_mul (by norm_num : 0 < 256)]
      calc v < 256 ^ (w + 1) := h
        _ = 256 ^ w * 256 := by ring
    simp only [toLE, fromLE, ih (v / 256) hdiv]
    omega

theorem readN_toLE_append (w v : Nat) (rest : List Nat) (h : v < 256 ^ w) :
    readN w (toLE w v ++ rest) = some (v, rest) := by
  unfold readN
  have hlen : (toLE w v ++ rest).length = w + rest.length := by
    simp [toLE_length]
  have htake : (toLE w v ++ rest).take w = toLE w v :=
    List.take_left' (toLE_length w v)
  have hdrop : (toLE w v ++ rest).drop w = rest :=
    List.drop_left' (toLE_length w v)
  rw [if_neg (by omega)]
  rw [htake, hdrop, fromLE_toLE w v h]

theorem lt64_conv {v : Nat} (h : v < 2 ^ 64) : v < 256 ^ 8 := by
  norm_num at h ⊢
  omega

theorem lt32_conv {v : Nat} (h : v < 2 ^ 32) : v < 256 ^ 4 := by
  norm_num at h ⊢
  omega

theorem lt16_conv {v : Nat} (h : v < 2 ^ 16) : v < 256 ^ 2 := by
  norm_num at h ⊢
  omega

/-- Header of a STORED message.  `STORED_Message.h` is not among the
verification sources, so the struct is modelled from the fields the `.cpp`
file accesses: record id (`rid`, a log id and an LSN), `wave`, `status`,
`redirect` (a NodeID, stored as its 4-byte pattern), `flags`
(`STORED_flags_t`, 32 bits) and `shard` (`shard_index_t`, a 16-bit pattern;
`-1` for old protocols). -/
structure STORED_Header where
  rid_logid : Nat
  rid_lsn : Nat
  wave : Nat
  status : E
  redirect : Nat
  flags : Nat
  shard : Nat
  deriving DecidableEq, Repr

/-- Flag bit `SYNCED` of `STORED_Header`.  The flag constants are not in the
verification sources; they are modelled as the distinct single bits that the
bitmask code of `STORED_Message.cpp` requires, in the order the
`getDebugInfo` flag printer lists them. -/
def STORED_Header.SYNCED : Nat := 1

/-- Flag bit `OVERLOADED` of `STORED_Header`. -/
def STORED_Header.OVERLOADED : Nat := 2

/-- Flag bit `AMENDABLE_DEPRECATED` of `STORED_Header`. -/
def STORED_Header.AMENDABLE_DEPRECATED : Nat := 4

/-- Flag bit `REBUILDING` of `STORED_Header`. -/
def STORED_Header.REBUILDING : Nat := 8

/-- Flag bit `PREMPTED_BY_SOFT_SEAL_ONLY` of `STORED_Header`. -/
def STORED_Header.PREMPTED_BY_SOFT_SEAL_ONLY : Nat := 16

/-- Flag bit `LOW_WATERMARK_NOSPC` of `STORED_Header`. -/
def STORED_Header.LOW_WATERMARK_NOSPC : Nat := 32

/-- Invalid LSN (`LSN_INVALID`), the 0 sentinel. -/
def LSN_INVALID : Nat := 0

/-- Invalid flush token (`FlushToken_INVALID`). -/
def FlushToken_INVALID : Nat := 0

/-- Invalid server instance id (`ServerInstanceId_INVALID`). -/
def ServerInstanceId_INVALID : Nat := 0

/-- Invalid log rebuilding id (`LOG_REBUILDING_ID_INVALID`). -/
def LOG_REBUILDING_ID_INVALID : Nat := 0

/-- Protocol version constant `Compatibility::REBUILDING_WITHOUT_WAL_2`.
The `Compatibility` enum is not among the verification sources; the concrete
number is a model constant, the embedded code only compares against it. -/
def REBUILDING_WITHOUT_WAL_2 : Nat := 21

/-- In-memory STORED message, fields in the order of the C++ constructor. -/
structure STORED_Message where
  header_ : STORED_Header
  rebuilding_version_ : Nat
  rebuilding_wave_ : Nat
  rebuilding_id_ : Nat
  flushToken_ : Nat
  serverInstanceId_ : Nat
  rebuildingRecipient_ : ShardID
  deriving DecidableEq, Repr

/-- Byte encoding of a ShardID written by `writer.write(rebuildingRecipient_)`
(two 16-bit fields). -/
def serializeShardID (x : ShardID) : List Nat :=
  toLE 2 x.node ++ toLE 2 x.shard

/-- Byte decoding of a ShardID. -/
def readShardID (s : List Nat) : Option (ShardID × List Nat) :=
  match readN 2 s with
  | none => none
  | some (n, s1) =>
    match readN 2 s1 with
    | none => none
    | some (sh, s2) => some (⟨n, sh⟩, s2)

/-- Byte encoding of the STORED header blob written by
`writer.write(&header_, STORED_Header::headerSize(writer.proto()))`.
`headerSize` is modelled at its maximal (current-protocol) value; the
round-trip theorem below is stated for protocol versions at or above
`REBUILDING_WITHOUT_WAL_2`, where the full header is on the wire. -/
def serializeHeader (h : STORED_Header) : List Nat :=
  toLE 8 h.rid_logid ++ toLE 8 h.rid_lsn ++ toLE 4 h.wave
    ++ toLE 2 h.status.toCode ++ toLE 4 h.redirect ++ toLE 4 h.flags
    ++ toLE 2 h.shard

/-- Byte decoding of the STORED header blob. -/
def deserializeHeader (s : List Nat) : Option (STORED_Header × List Nat) :=
  match readN 8 s with
  | none => none
  | some (logid, s1) =>
    match readN 8 s1 with
    | none => none
    | some (lsn, s2) =>
      match readN 4 s2 with
      | none => none
      | some (wv, s3) =>
        match readN 2 s3 with
        | none => none
        | some (st, s4) =>
          match readN 4 s4 with
          | none => none
          | some (rd, s5) =>
            match readN 4 s5 with
            | none => none
            | some (fl, s6) =>
              match readN 2 s6 with
              | none => none
              | some (sh, s7) =>
                some (⟨logid, lsn, wv, E.ofCode st, rd, fl, sh⟩, s7)

/-- Embedding of `STORED_Message::serialize`.  The `writer.protoGate(v)` call
makes every later write a no-op when `proto < v`; this stateful behaviour is
folded into the conditions: the gate is only reached inside the REBUILDING
flag branch, so the recipient write is additionally suppressed when that
branch ran with `proto < REBUILDING_WITHOUT_WAL_2`. -/
def STORED_Message.serialize (proto : Nat) (m : STORED_Message) : List Nat :=
  serializeHeader m.header_
    ++ (if m.header_.flags &&& STORED_Header.REBUILDING ≠ 0 then
          toLE 8 m.rebuilding_version_ ++ toLE 4 m.rebuilding_wave_
            ++ toLE 8 m.flushToken_ ++ toLE 8 m.serverInstanceId_
            ++ (if REBUILDING_WITHOUT_WAL_2 ≤ proto then
                  toLE 8 m.rebuilding_id_
                else [])
        else [])
    ++ (if m.header_.status = E.REBUILDING
          ∧ ¬(m.header_.flags &&& STORED_Header.REBUILDING ≠ 0
              ∧ proto < REBUILDING_WITHOUT_WAL_2) then
          serializeShardID m.rebuildingRecipient_
        else [])

/-- Embedding of `STORED_Message::deserialize`.  Fields that are not read
keep the invalid defaults the function initializes them with; a
`reader.protoGate(v)` with `proto < v` turns every later read into a no-op
(again only reachable inside the REBUILDING flag branch). -/
def STORED_Message.deserialize (proto : Nat) (s : List Nat) :
    Option STORED_Message :=
  match deserializeHeader s with
  | none => none
  | some (hdr, s1) =>
    if hdr.flags &&& STORED_Header.REBUILDING ≠ 0 then
      match readN 8 s1 with
      | none => none
      | some (rv, s2) =>
        match readN 4 s2 with
        | none => none
        | some (rw, s3) =>
          match readN 8 s3 with
          | none => none
          | some (ft, s4) =>
            match readN 8 s4 with
            | none => none
            | some (sid, s5) =>
              if REBUILDING_WITHOUT_WAL_2 ≤ proto then
                match readN 8 s5 with
                | none => none
                | some (rid, s6) =>
                  if hdr.status = E.REBUILDING then
                    match readShardID s6 with
                    | none => none
                    | some (rr, _s7) => some ⟨hdr, rv, rw, rid, ft, sid, rr⟩
                  else
                    some ⟨hdr, rv, rw, rid, ft, sid, ShardID.invalid⟩
              else
                some ⟨hdr, rv, rw, LOG_REBUILDING_ID_INVALID, ft, sid,
                  ShardID.invalid⟩
    else
      if hdr.status = E.REBUILDING then
        match readShardID s1 with
        | none => none
        | some (rr, _s2) =>
          some ⟨hdr, LSN_INVALID, 0, LOG_REBUILDING_ID_INVALID,
            FlushToken_INVALID, ServerInstanceId_INVALID, rr⟩
      else
        some ⟨hdr, LSN_INVALID, 0, LOG_REBUILDING_ID_INVALID,
          FlushToken_INVALID, ServerInstanceId_INVALID, ShardID.invalid⟩

/-- Range constraints of the machine-integer fields of a header. -/
def STORED_Header.wf (h : STORED_Header) : Prop :=
  h.rid_logid < 2 ^ 64 ∧ h.rid_lsn < 2 ^ 64 ∧ h.wave < 2 ^ 32
    ∧ h.redirect < 2 ^ 32 ∧ h.flags < 2 ^ 32 ∧ h.shard < 2 ^ 16

instance (h : STORED_Header) : Decidable h.wf := by
  unfold STORED_Header.wf
  infer_instance

/-- Range constraints of the fields of a ShardID. -/
def ShardID.wf (x : ShardID) : Prop :=
  x.node < 2 ^ 16 ∧ x.shard < 2 ^ 16

instance (x : ShardID) : Decidable x.wf := by
  unfold ShardID.wf
  infer_instance

/-- Range constraints of the machine-integer fields of a message. -/
def STORED_Message.wf (m : STORED_Message) : Prop :=
  m.header_.wf ∧ m.rebuilding_version_ < 2 ^ 64 ∧ m.rebuilding_wave_ < 2 ^ 32
    ∧ m.rebuilding_id_ < 2 ^ 64 ∧ m.flushToken_ < 2 ^ 64
    ∧ m.serverInstanceId_ < 2 ^ 64 ∧ m.rebuildingRecipient_.wf

instance (m : STORED_Message) : Decidable m.wf := by
  unfold STORED_Message.wf
  infer_instance

theorem deserializeHeader_serializeHeader (h : STORED_Header)
    (rest : List Nat) (hwf : h.wf) :
    deserializeHeader (serializeHeader h ++ rest) = some (h, rest) := by
  obtain ⟨h1, h2, h3, h4, h5, h6⟩ := hwf
  have b1 := lt64_conv h1
  have b2 := lt64_conv h2
  have b3 := lt32_conv h3
  have b4 := lt16_conv (E.toCode_lt h.status)
  have b5 := lt32_conv h4
  have b6 := lt32_conv h5
  have b7 := lt16_conv h6
  unfold serializeHeader deserializeHeader
  simp only [List.append_assoc]
  simp only [readN_toLE_append, E.ofCode_toCode, b1, b2, b3, b4, b5, b6, b7]

theorem readShardID_serializeShardID (x : ShardID) (rest : List Nat)
    (hwf : x.wf) :
    readShardID (serializeShardID x ++ rest) = some (x, rest) := by
  obtain ⟨h1, h2⟩ := hwf
  have b1 := lt16_conv h1
  have b2 := lt16_conv h2
  unfold serializeShardID readShardID
  simp only [List.append_assoc]
  simp only [readN_toLE_append, b1, b2]

/-- Value carried by a debug-info entry (`folly::dynamic`): the embedded
code only stores integers and strings. -/
inductive Dyn where
  | num : Nat → Dyn
  | str : String → Dyn
  deriving DecidableEq, Repr

/-- Printer `lsn_to_string` (utility outside the verification sources,
modelled as a plain decimal rendering; only injectivity-free formatting is
relied upon). -/
def lsn_to_string (lsn : Nat) : String := toString lsn

/-- Printer `error_name` of a status code. -/
def error_name : E → String
  | .OK => "OK"
  | .PREEMPTED => "PREEMPTED"
  | .NOSPC => "NOSPC"
  | .FAILED => "FAILED"
  | .DISABLED => "DISABLED"
  | .DROPPED => "DROPPED"
  | .FORWARD => "FORWARD"
  | .NOTSTORAGE => "NOTSTORAGE"
  | .REBUILDING => "REBUILDING"
  | .SHUTDOWN => "SHUTDOWN"
  | .CHECKSUM_MISMATCH => "CHECKSUM_MISMATCH"
  | .PROTO => "PROTO"
  | .OTHER => "OTHER"

/-- Printer for the `redirect` NodeID field (modelled). -/
def nodeIDToString (n : Nat) : String := toString n

/-- Printer `ShardID::toString` (modelled). -/
def ShardID.toString (s : ShardID) : String :=
  "N" ++ nodeIDToString s.node ++ ":S" ++ nodeIDToString s.shard

/-- The `flagsToString` lambda of `STORED_Message::getDebugInfo`: collect the
names of the set flag bits in the order of the FLAG invocations and join them
with a bar. -/
def flagsToString (flags : Nat) : String :=
  let strings :=
    (if flags &&& STORED_Header.SYNCED ≠ 0 then ["SYNCED"] else [])
    ++ (if flags &&& STORED_Header.OVERLOADED ≠ 0 then ["OVERLOADED"] else [])
    ++ (if flags &&& STORED_Header.AMENDABLE_DEPRECATED ≠ 0 then
          ["AMENDABLE_DEPRECATED"] else [])
    ++ (if flags &&& STORED_Header.REBUILDING ≠ 0 then ["REBUILDING"] else [])
    ++ (if flags &&& STORED_Header.PREMPTED_BY_SOFT_SEAL_ONLY ≠ 0 then
          ["PREMPTED_BY_SOFT_SEAL_ONLY"] else [])
    ++ (if flags &&& STORED_Header.LOW_WATERMARK_NOSPC ≠ 0 then
          ["LOW_WATERMARK_NOSPC"] else [])
  String.intercalate "|" strings

/-- Embedding of `STORED_Message::getDebugInfo`.  The guard of the
rebuilding-related entries embeds the C++ expression
`header_.flags && STORED_Header::REBUILDING`, a LOGICAL and of two integers,
i.e. `(flags != 0) && (REBUILDING != 0)` under C++ truthiness — not the
bitwise test `flags & REBUILDING` used everywhere else. -/
def STORED_Message.getDebugInfo (m : STORED_Message) : List (String × Dyn) :=
  [("log_id", Dyn.num m.header_.rid_logid),
   ("lsn", Dyn.str (lsn_to_string m.header_.rid_lsn)),
   ("wave", Dyn.num m.header_.wave),
   ("status", Dyn.str (error_name m.header_.status)),
   ("redirect", Dyn.str (nodeIDToString m.header_.redirect)),
   ("flags", Dyn.str (flagsToString m.header_.flags)),
   ("shard", Dyn.num m.header_.shard),
   ("rebuilding_version", Dyn.str (lsn_to_string m.rebuilding_version_))]
  ++ (if m.header_.flags ≠ 0 ∧ STORED_Header.REBUILDING ≠ 0 then
        [("rebuilding_wave", Dyn.num m.rebuilding_wave_),
         ("rebuilding_id", Dyn.num m.rebuilding_id_),
         ("flush_token", Dyn.num m.flushToken_),
         ("server_instance_id", Dyn.num m.serverInstanceId_),
         ("rebuilding_recipient", Dyn.str m.rebuildingRecipient_.toString)]
      else [])

/-- Message disposition returned by `onReceived` handlers. -/
inductive Disposition where
  | NORMAL
  | ERROR
  deriving DecidableEq, Repr

/-- Peer address, reduced to the parts `onReceived` consults: the
client/server distinction and the peer node index. -/
structure Address where
  isClientAddress : Bool
  node_index : Nat
  deriving DecidableEq, Repr

/-- Worker-side state consulted by `onReceived`, abstracted to the outcomes
of the calls the function makes: whether the record-rebuilding lookup
succeeds, the `hold_store_replies` test setting, whether the Appender lookup
finds an appender, whether `repliesHeld() + 1 < repliesExpected()`, and
whether `Appender::onReply` reports an error for the current message. -/
structure OnReceivedEnv where
  hasRecordRebuilding : Bool
  hold_store_replies : Bool
  appenderFound : Bool
  repliesHeldBelowExpected : Bool
  onReplyError : Bool
  deriving DecidableEq, Repr

/-- Result of `onReceived`: disposition plus the value stored into the
thread-local `err` variable (`none` when the function does not set it). -/
structure OnReceivedResult where
  disp : Disposition
  err : Option E
  deriving DecidableEq, Repr

/-- Embedding of `STORED_Message::handleOneMessage`: no appender means the
reply is ignored (NORMAL); otherwise the disposition is ERROR exactly when
`Appender::onReply` fails. -/
def handleOneMessage (env : OnReceivedEnv) : Disposition :=
  if !env.appenderFound then Disposition.NORMAL
  else if env.onReplyError then Disposition.ERROR
  else Disposition.NORMAL

/-- Embedding of `STORED_Message::onReceived`.  The `ld_check(shard_idx != -1)`
is a debug assertion and does not alter control flow; `onStored` and the
rate-limited log line are side effects with no influence on the returned
disposition. -/
def STORED_Message.onReceived (m : STORED_Message) (frm : Address)
    (env : OnReceivedEnv) : OnReceivedResult :=
  if frm.isClientAddress then
    ⟨Disposition.ERROR, some E.PROTO⟩
  else if m.header_.status = E.REBUILDING
      ∧ m.rebuildingRecipient_.isValid = false then
    ⟨Disposition.ERROR, some E.PROTO⟩
  else if m.header_.flags &&& STORED_Header.REBUILDING ≠ 0 then
    ⟨Disposition.NORMAL, none⟩
  else if env.hold_store_replies then
    if !env.appenderFound then ⟨Disposition.NORMAL, none⟩
    else if env.repliesHeldBelowExpected then ⟨Disposition.NORMAL, none⟩
    else ⟨handleOneMessage env, none⟩
  else ⟨handleOneMessage env, none⟩

/-- Embedding of the status switch in `STORED_Message::createAndSend`:
`true` iff an always-failing `ld_check` branch is reached (`ld_check(false)`
in the `E::FAILED` case, `ld_check(rebuildingRecipient.isValid())` in the
`E::REBUILDING` case).  The stat counters incremented along the way do not
influence the check outcome and are not modelled. -/
def createAndSendCheckViolated (status : E)
    (rebuildingRecipient : ShardID) : Bool :=
  if status ≠ E.OK then
    match status with
    | .FAILED => true
    | .REBUILDING => !rebuildingRecipient.isValid
    | _ => false
  else false

/-- Compaction style constants of the substrate (`rocksdb`). -/
inductive CompactionStyle where
  | kCompactionStyleUniversal
  | kCompactionStyleLevel
  deriving DecidableEq, Repr

/-- Compression constants of the substrate. -/
inductive CompressionType where
  | kNoCompression
  | kSnappyCompression
  | kZlibCompression
  | kBZip2Compression
  | kLZ4Compression
  | kLZ4HCCompression
  | kXpressCompression
  | kZSTD
  deriving DecidableEq, Repr

/-- Values of `rocksdb::DBOptions::AccessHint` used by the adapter. -/
inductive AccessHint where
  | SEQUENTIAL
  | NORMAL
  deriving DecidableEq, Repr

/-- Universal compaction sub-options of `rocksdb::Options`. -/
structure CompactionOptionsUniversal where
  min_merge_width : Int
  max_merge_width : Int
  max_size_amplification_percent : Int
  size_ratio : Int
  deriving DecidableEq, Repr

/-- The fields of `rocksdb::Options` that
`RocksDBSettings::toRocksDBOptions` assigns.  Note that `rocksdb::Options`
has no block-size, block-cache or bloom-filter members at all: in the
substrate those live in `rocksdb::BlockBasedTableOptions`, which this
function does not construct. -/
structure Options where
  compaction_style : CompactionStyle
  compression : CompressionType
  access_hint_on_compaction_start : AccessHint
  advise_random_on_open : Bool
  skip_stats_update_on_db_open : Bool
  allow_fallocate : Bool
  max_open_files : Int
  bytes_per_sync : Int
  wal_bytes_per_sync : Int
  compaction_readahead_size : Int
  level0_file_num_compaction_trigger : Int
  level0_slowdown_writes_trigger : Int
  level0_stop_writes_trigger : Int
  max_background_compactions : Int
  max_background_flushes : Int
  max_bytes_for_level_base : Int
  max_bytes_for_level_multiplier : Int
  max_write_buffer_number : Int
  num_levels : Int
  target_file_size_base : Int
  write_buffer_size : Int
  max_total_wal_size : Int
  db_write_buffer_size : Int
  arena_block_size : Int
  compaction_options_universal : CompactionOptionsUniversal

/-- The `RocksDBSettings` fields read by `toRocksDBOptions`, together with
the block-size, cache-size and bloom-filter knobs that `defineSettings`
declares but `toRocksDBOptions` never reads (they are consumed when building
table options elsewhere).  Numeric knobs are modelled as `Int`. -/
structure RocksDBSettings where
  compaction_style : CompactionStyle
  compression : CompressionType
  compaction_access_sequential : Bool
  advise_random_on_open : Bool
  update_stats_on_db_open : Bool
  allow_fallocate : Bool
  max_open_files : Int
  bytes_per_sync : Int
  wal_bytes_per_sync : Int
  compaction_readahead_size : Int
  level0_file_num_compaction_trigger : Int
  level0_slowdown_writes_trigger : Int
  level0_stop_writes_trigger : Int
  max_background_compactions : Int
  max_background_flushes : Int
  max_bytes_for_level_base : Int
  max_bytes_for_level_multiplier : Int
  max_write_buffer_number : Int
  num_levels : Int
  target_file_size_base : Int
  write_buffer_size : Int
  max_total_wal_size : Int
  db_write_buffer_size : Int
  arena_block_size : Int
  uc_min_merge_width : Int
  uc_max_merge_width : Int
  uc_max_size_amplification_percent : Int
  uc_size_ratio : Int
  block_size_ : Int
  cache_size_ : Int
  bloom_bits_per_key_ : Int

/-- Embedding of `RocksDBSettings::toRocksDBOptions`, assignment for
assignment. -/
def RocksDBSettings.toRocksDBOptions (s : RocksDBSettings) : Options where
  compaction_style := s.compaction_style
  compression := s.compression
  access_hint_on_compaction_start :=
    if s.compaction_access_sequential then AccessHint.SEQUENTIAL
    else AccessHint.NORMAL
  advise_random_on_open := s.advise_random_on_open
  skip_stats_update_on_db_open := !s.update_stats_on_db_open
  allow_fallocate := s.allow_fallocate
  max_open_files := s.max_open_files
  bytes_per_sync := s.bytes_per_sync
  wal_bytes_per_sync := s.wal_bytes_per_sync
  compaction_readahead_size := s.compaction_readahead_size
  level0_file_num_compaction_trigger := s.level0_file_num_compaction_trigger
  level0_slowdown_writes_trigger := s.level0_slowdown_writes_trigger
  level0_stop_writes_trigger := s.level0_stop_writes_trigger
  max_background_compactions := s.max_background_compactions
  max_background_flushes := s.max_background_flushes
  max_bytes_for_level_base := s.max_bytes_for_level_base
  max_bytes_for_level_multiplier := s.max_bytes_for_level_multiplier
  max_write_buffer_number := s.max_write_buffer_number
  num_levels := s.num_levels
  target_file_size_base := s.target_file_size_base
  write_buffer_size := s.write_buffer_size
  max_total_wal_size := s.max_total_wal_size
  db_write_buffer_size := s.db_write_buffer_size
  arena_block_size := s.arena_block_size
  compaction_options_universal :=
    ⟨s.uc_min_merge_width, s.uc_max_merge_width,
      s.uc_max_size_amplification_percent, s.uc_size_ratio⟩

/-- The compression_type validator lambda of
`RocksDBSettings::defineSettings`, branch for branch; a thrown
`boost::program_options::error` is modelled as `Except.error` with the
message text. -/
def compression_type_validator (val : String) :
    Except String CompressionType :=
  if val = "snappy" then .ok .kSnappyCompression
  else if val = "none" then .ok .kNoCompression
  else if val = "zlib" then .ok .kZlibCompression
  else if val = "bzip2" then .ok .kBZip2Compression
  else if val = "lz4" then .ok .kLZ4Compression
  else if val = "lz4hc" then .ok .kLZ4HCCompression
  else if val = "xpress" then .ok .kXpressCompression
  else if val = "zstd" then .ok .kZSTD
  else .error ("invalid value '" ++ val
    ++ "' for option --rocksdb-compression-type")

/-- A parsed rate limit (`rate_limit_t`, a pair of a byte count and a
duration in milliseconds). -/
structure rate_limit_t where
  first : Nat
  second : Nat
  deriving DecidableEq, Repr

/-- The compaction_ratelimit validator lambda of
`RocksDBSettings::defineSettings`, parameterized by the helper
`parse_rate_limit` (declared outside the verification sources; `none`
models a nonzero return code).  The lambda throws when parsing fails or the
parsed byte count is zero (`rv != 0 || r.first == 0`) and returns the parsed
rate otherwise. -/
def compaction_ratelimit_validator
    (parse_rate_limit : String → Option rate_limit_t) (val : String) :
    Except String rate_limit_t :=
  match parse_rate_limit val with
  | none => .error ("invalid value '" ++ val
      ++ "' for option --compaction-ratelimit")
  | some r =>
    if r.first = 0 then
      .error ("invalid value '" ++ val
        ++ "' for option --compaction-ratelimit")
    else .ok r

/-- Modelled from the spec: the validator factory `parse_positive<ssize_t>()`
(from `logdevice/common/settings/Validators.h`, which is not among the
verification sources) accepts exactly the strictly positive values, matching
its name and the way `defineSettings` uses it for stripe and width counts. -/
def parse_positive (v : Int) : Except String Int :=
  if 0 < v then .ok v else .error "expected positive value"

/-- Default of the `rocksdb-num-metadata-locks` setting: the literal "256"
passed to `init` in `defineSettings`. -/
def num_metadata_locks_default : Int := 256

/-- Node attributes hashed by `NodesConfig::calculateHash` (the `Node`
struct itself is not among the verification sources; the fields are modelled
from the accesses in `calculateHash`).  `storage_capacity` is a
`folly::Optional<double>` whose bytes are only ever memcpy'd into the hashed
string, so the double is modelled by its 64-bit pattern; `storage_state` is
an enum modelled by its 32-bit code; `num_shards` is the 16-bit
`shard_size_t` (a static_assert in the source pins its size to 2). -/
structure Node where
  storage_capacity : Option Nat
  storage_state : Nat
  exclude_from_nodesets : Bool
  num_shards : Nat
  location_str : String
  deriving DecidableEq, Repr

/-- The `locationStr()` accessor used by `calculateHash`. -/
def Node.locationStr (n : Node) : String := n.location_str

/-- Bytes appended for one node by the `append` lambda of `calculateHash`:
the 2-byte node id (a static_assert pins `node_index_t` to 2 bytes), the
8-byte `storage_capacity.value_or(0)` pattern, the storage state, the
`exclude_from_nodesets` bool, the 2-byte `num_shards`, and the location
string including its terminating null byte. -/
def nodeHashBytes (node_id : Nat) (node : Node) : List Nat :=
  toLE 2 node_id
    ++ toLE 8 (node.storage_capacity.getD 0)
    ++ toLE 4 node.storage_state
    ++ [if node.exclude_from_nodesets then 1 else 0]
    ++ toLE 2 node.num_shards
    ++ (node.locationStr.toList.map Char.toNat) ++ [0]

/-- Lookup of a node id in the nodes map (`nodes_.find(node_id)`); the map
is modelled as its association list in iteration order. -/
def findNode (nodes : List (Nat × Node)) (id : Nat) : Option Node :=
  match nodes with
  | [] => none
  | (k, v) :: rest => if k = id then some v else findNode rest id

/-- Embedding of `NodesConfig::calculateHash` up to the final hash call:
collect the node ids, sort them (`std::sort`, "so the order is consistent
regardless of std::unordered_map internals"), then append each node's bytes
in sorted id order.  The `ld_check(it != nodes_.end())` lookup always
succeeds on a well-formed map; a failed lookup contributes no bytes. -/
def hashableString (nodes : List (Nat × Node)) : List Nat :=
  ((List.insertionSort (· ≤ ·) (nodes.map Prod.fst)).map (fun node_id =>
    match findNode nodes node_id with
    | none => []
    | some node => nodeHashBytes node_id node)).flatten

/-- Embedding of the final step of `NodesConfig::calculateHash`: the 64-bit
SpookyHashV2 with its fixed seed comes from folly (outside the verification
sources) and is abstracted as the parameter `H` applied to the built byte
string. -/
def calculateHash (H : List Nat → Nat) (nodes : List (Nat × Node)) : Nat :=
  H (hashableString nodes)

/-- Modelled from the spec: `folly::small_vector<T, n>` (folly is not among
the verification sources; the spec calls it "a fixed-size-optimized sequence
type with inline storage for up to the default copyset width (6) and heap
fallback") reduced to its element list, indexed by the inline capacity. -/
structure small_vector (α : Type) (inline_capacity : Nat) where
  data : List α

/-- Whether a small_vector has fallen back to heap allocation: more elements
than the inline capacity. -/
def small_vector.usesHeap {α : Type} {n : Nat} (v : small_vector α n) : Bool :=
  decide (n < v.data.length)

/-- Embedding of `COPYSET_INLINE_DEFAULT` from `CopySet.h`. -/
def COPYSET_INLINE_DEFAULT : Nat := 6

/-- Embedding of the `copyset_custsz_t<inline_>` alias from `CopySet.h`. -/
abbrev copyset_custsz_t (inline_ : Nat) : Type := small_vector ShardID inline_

/-- Embedding of `copyset_t = copyset_custsz_t<>`: the instantiation at the
default inline capacity. -/
abbrev copyset_t : Type := copyset_custsz_t COPYSET_INLINE_DEFAULT

/-- Concrete settings value used by the C2 counterexample. -/
def settingsA : RocksDBSettings where
  compaction_style := CompactionStyle.kCompactionStyleUniversal
  compression := CompressionType.kNoCompression
  compaction_access_sequential := true
  advise_random_on_open := false
  update_stats_on_db_open := false
  allow_fallocate := true
  max_open_files := 10000
  bytes_per_sync := 1048576
  wal_bytes_per_sync := 1048576
  compaction_readahead_size := 4096
  level0_file_num_compaction_trigger := 10
  level0_slowdown_writes_trigger := 25
  level0_stop_writes_trigger := 30
  max_background_compactions := 2
  max_background_flushes := 1
  max_bytes_for_level_base := 10485760
  max_bytes_for_level_multiplier := 10
  max_write_buffer_number := 2
  num_levels := 1
  target_file_size_base := 67108864
  write_buffer_size := 134217728
  max_total_wal_size := 2500000000
  db_write_buffer_size := 0
  arena_block_size := 4194304
  uc_min_merge_width := 2
  uc_max_merge_width := 0
  uc_max_size_amplification_percent := 200
  uc_size_ratio := 1
  block_size_ := 4096
  cache_size_ := 10485760
  bloom_bits_per_key_ := 10

/-- Same settings with different block-size, cache-size and bloom knobs,
used by the C2 counterexample. -/
def settingsB : RocksDBSettings :=
  { settingsA with
    block_size_ := 8192
    cache_size_ := 20971520
    bloom_bits_per_key_ := 0 }

/-- Concrete message used by the C4 witness: REBUILDING flag set, status
E::REBUILDING, all fields in range. -/
def storedMsgExample : STORED_Message where
  header_ :=
    { rid_logid := 7
      rid_lsn := 100
      wave := 3
      status := E.REBUILDING
      redirect := 5
      flags := 8
      shard := 2 }
  rebuilding_version_ := 42
  rebuilding_wave_ := 2
  rebuilding_id_ := 19
  flushToken_ := 77
  serverInstanceId_ := 123
  rebuildingRecipient_ := ⟨4, 1⟩

/-- Concrete node attribute records used by the C6 witness. -/
def nodeExampleA : Node where
  storage_capacity := some 4607182418800017408
  storage_state := 0
  exclude_from_nodesets := false
  num_shards := 4
  location_str := "rgn.dc.cl.row.rack"

/-- Second concrete node attribute record used by the C6 witness. -/
def nodeExampleB : Node where
  storage_capacity := none
  storage_state := 1
  exclude_from_nodesets := true
  num_shards := 4
  location_str := "rgn.dc2.cl.row.rack"

theorem readN_toLE (w v : Nat) (h : v < 256 ^ w) :
    readN w (toLE w v) = some (v, []) := by
  have hx := readN_toLE_append w v [] h
  simpa using hx

theorem readShardID_serializeShardID_nil (x : ShardID) (hwf : x.wf) :
    readShardID (serializeShardID x) = some (x, []) := by
  have hx := readShardID_serializeShardID x [] hwf
  simpa using hx

theorem deserializeHeader_serializeHeader_nil (h : STORED_Header)
    (hwf : h.wf) : deserializeHeader (serializeHeader h) = some (h, []) := by
  have hx := deserializeHeader_serializeHeader h [] hwf
  simpa using hx

/-- C4: round trip of `STORED_Message::serialize` and
`STORED_Message::deserialize` for protocol versions at or above
REBUILDING_WITHOUT_WAL_2: the header is recovered exactly; the rebuilding
fields are transmitted and recovered iff the header's REBUILDING flag bit is
set and are the invalid defaults otherwise; the rebuilding recipient is
transmitted and recovered iff the header status is E::REBUILDING. -/
theorem c4_serialize_deserialize_roundtrip (proto : Nat) (m : STORED_Message)
    (hp : REBUILDING_WITHOUT_WAL_2 ≤ proto) (hm : m.wf) :
    STORED_Message.deserialize proto (STORED_Message.serialize proto m)
      = some
          { header_ := m.header_
            rebuilding_version_ :=
              if m.header_.flags &&& STORED_Header.REBUILDING ≠ 0 then
                m.rebuilding_version_
              else LSN_INVALID
            rebuilding_wave_ :=
              if m.header_.flags &&& STORED_Header.REBUILDING ≠ 0 then
                m.rebuilding_wave_
              else 0
            rebuilding_id_ :=
              if m.header_.flags &&& STORED_Header.REBUILDING ≠ 0 then
                m.rebuilding_id_
              else LOG_REBUILDING_ID_INVALID
            flushToken_ :=
              if m.header_.flags &&& STORED_Header.REBUILDING ≠ 0 then
                m.flushToken_
              else FlushToken_INVALID
            serverInstanceId_ :=
              if m.header_.flags &&& STORED_Header.REBUILDING ≠ 0 then
                m.serverInstanceId_
              else ServerInstanceId_INVALID
            rebuildingRecipient_ :=
              if m.header_.status = E.REBUILDING then
                m.rebuildingRecipient_
              else ShardID.invalid } := by
  obtain ⟨hwf, w1, w2, w3, w4, w5, wr⟩ := hm
  have hnp : ¬ proto < REBUILDING_WITHOUT_WAL_2 := Nat.not_lt.mpr hp
  have d1 := lt64_conv w1
  have d2 := lt32_conv w2
  have d3 := lt64_conv w3
  have d4 := lt64_conv w4
  have d5 := lt64_conv w5
  by_cases hb : m.header_.flags &&& STORED_Header.REBUILDING ≠ 0 <;>
    by_cases hst : m.header_.status = E.REBUILDING <;>
      simp [STORED_Message.serialize, STORED_Message.deserialize, hb, hst,
        hp, hnp, List.append_assoc,
        deserializeHeader_serializeHeader _ _ hwf,
        deserializeHeader_serializeHeader_nil _ hwf,
        readShardID_serializeShardID _ _ wr,
        readShardID_serializeShardID_nil _ wr,
        readN_toLE_append _ _ _ d1, readN_toLE_append _ _ _ d2,
        readN_toLE_append _ _ _ d3, readN_toLE_append _ _ _ d4,
        readN_toLE_append _ _ _ d5, readN_toLE _ _ d3]

/-- Witness for C4 at protocol version 21 and the concrete example message
(REBUILDING flag set, status E::REBUILDING). -/
theorem c4_serialize_deserialize_roundtrip_witness :
    (REBUILDING_WITHOUT_WAL_2 ≤ 21 ∧ storedMsgExample.wf)
    ∧ STORED_Message.deserialize 21
          (STORED_Message.serialize 21 storedMsgExample)
        = some
            { header_ := storedMsgExample.header_
              rebuilding_version_ :=
                if storedMsgExample.header_.flags
                    &&& STORED_Header.REBUILDING ≠ 0 then
                  storedMsgExample.rebuilding_version_
                else LSN_INVALID
              rebuilding_wave_ :=
                if storedMsgExample.header_.flags
                    &&& STORED_Header.REBUILDING ≠ 0 then
                  storedMsgExample.rebuilding_wave_
                else 0
              rebuilding_id_ :=
                if storedMsgExample.header_.flags
                    &&& STORED_Header.REBUILDING ≠ 0 then
                  storedMsgExample.rebuilding_id_
                else LOG_REBUILDING_ID_INVALID
              flushToken_ :=
                if storedMsgExample.header_.flags
                    &&& STORED_Header.REBUILDING ≠ 0 then
                  storedMsgExample.flushToken_
                else FlushToken_INVALID
              serverInstanceId_ :=
                if storedMsgExample.header_.flags
                    &&& STORED_Header.REBUILDING ≠ 0 then
                  storedMsgExample.serverInstanceId_
                else ServerInstanceId_INVALID
              rebuildingRecipient_ :=
                if storedMsgExample.header_.status = E.REBUILDING then
                  storedMsgExample.rebuildingRecipient_
                else ShardID.invalid } :=
  ⟨⟨by decide, by decide⟩,
    c4_serialize_deserialize_roundtrip 21 storedMsgExample (by decide)
      (by decide)⟩

/-- C1: in `STORED_Message::getDebugInfo` the rebuilding-related entries
(rebuilding_wave, rebuilding_id, flush_token, server_instance_id,
rebuilding_recipient) are guarded by `header_.flags &&
STORED_Header::REBUILDING`, a logical and; since the REBUILDING constant is
nonzero, the entries are appended iff the flags word is nonzero — also for
headers whose REBUILDING bit itself is clear. -/
theorem c1_getDebugInfo_rebuilding_entries_iff_flags_nonzero
    (m : STORED_Message) :
    m.getDebugInfo.map Prod.fst
      = ["log_id", "lsn", "wave", "status", "redirect", "flags", "shard",
         "rebuilding_version"]
        ++ (if m.header_.flags ≠ 0 then
              ["rebuilding_wave", "rebuilding_id", "flush_token",
               "server_instance_id", "rebuilding_recipient"]
            else []) := by
  by_cases hf : m.header_.flags = 0
  · simp [STORED_Message.getDebugInfo, hf, STORED_Header.REBUILDING]
  · simp [STORED_Message.getDebugInfo, hf, STORED_Header.REBUILDING]

/-- C3: `STORED_Message::onReceived` produces the protocol-error outcome
(`err = E::PROTO`, `Disposition::ERROR`) exactly when the message arrives
from a client address, or its status is E::REBUILDING while the carried
rebuilding recipient is invalid; in particular a message with status
E::REBUILDING from a server address with a valid recipient never takes this
error path. -/
theorem c3_onReceived_proto_error_iff (m : STORED_Message) (frm : Address)
    (env : OnReceivedEnv) :
    m.onReceived frm env
        = ⟨Disposition.ERROR, some E.PROTO⟩
      ↔ (frm.isClientAddress = true
          ∨ (m.header_.status = E.REBUILDING
              ∧ m.rebuildingRecipient_.isValid = false)) := by
  unfold STORED_Message.onReceived handleOneMessage
  by_cases hc : frm.isClientAddress
  · simp [hc]
  · by_cases hr : m.header_.status = E.REBUILDING
        ∧ m.rebuildingRecipient_.isValid = false
    · simp [hc, hr]
    · by_cases hb : m.header_.flags &&& STORED_Header.REBUILDING ≠ 0
      · simp [hc, hr, hb]
      · by_cases hh : env.hold_store_replies
        · by_cases ha : env.appenderFound
          · by_cases hrep : env.repliesHeldBelowExpected
            · simp [hc, hr, hb, hh, ha, hrep]
            · by_cases ho : env.onReplyError <;>
                simp [hc, hr, hb, hh, ha, hrep, ho]
          · simp [hc, hr, hb, hh, ha]
        · by_cases ha : env.appenderFound
          · by_cases ho : env.onReplyError <;>
              simp [hc, hr, hb, hh, ha, ho]
          · simp [hc, hr, hb, hh, ha]

/-- C10: under the precondition that the status is never E::FAILED and that
an E::REBUILDING status comes with a valid rebuilding recipient, the
assertion-failure branches in the status switch of
`STORED_Message::createAndSend` (`ld_check(false)` for E::FAILED,
`ld_check(rebuildingRecipient.isValid())` for E::REBUILDING) are
unreachable. -/
theorem c10_createAndSend_checks_unreachable (status : E)
    (rebuildingRecipient : ShardID) (h1 : status ≠ E.FAILED)
    (h2 : status = E.REBUILDING → rebuildingRecipient.isValid = true) :
    createAndSendCheckViolated status rebuildingRecipient = false := by
  unfold createAndSendCheckViolated
  cases status <;> simp_all

/-- Witness for C10 at status E::REBUILDING with the valid recipient N4:S1. -/
theorem c10_createAndSend_checks_unreachable_witness :
    (E.REBUILDING ≠ E.FAILED
      ∧ (E.REBUILDING = E.REBUILDING → (ShardID.mk 4 1).isValid = true))
    ∧ createAndSendCheckViolated E.REBUILDING (ShardID.mk 4 1) = false :=
  ⟨⟨by decide, fun _ => by decide⟩,
    c10_createAndSend_checks_unreachable E.REBUILDING (ShardID.mk 4 1)
      (by decide) (fun _ => by decide)⟩

/-- C5: the compression_type validator accepts exactly the eight strings
"none", "snappy", "zlib", "bzip2", "lz4", "lz4hc", "xpress" and "zstd",
maps each to the corresponding substrate compression constant, and throws a
program-options error for every other input. -/
theorem c5_compression_type_validator_exact (val : String) :
    ((∃ c, compression_type_validator val = Except.ok c)
      ↔ (val = "none" ∨ val = "snappy" ∨ val = "zlib" ∨ val = "bzip2"
          ∨ val = "lz4" ∨ val = "lz4hc" ∨ val = "xpress" ∨ val = "zstd"))
    ∧ compression_type_validator "none"
        = Except.ok CompressionType.kNoCompression
    ∧ compression_type_validator "snappy"
        = Except.ok CompressionType.kSnappyCompression
    ∧ compression_type_validator "zlib"
        = Except.ok CompressionType.kZlibCompression
    ∧ compression_type_validator "bzip2"
        = Except.ok CompressionType.kBZip2Compression
    ∧ compression_type_validator "lz4"
        = Except.ok CompressionType.kLZ4Compression
    ∧ compression_type_validator "lz4hc"
        = Except.ok CompressionType.kLZ4HCCompression
    ∧ compression_type_validator "xpress"
        = Except.ok CompressionType.kXpressCompression
    ∧ compression_type_validator "zstd"
        = Except.ok CompressionType.kZSTD := by
  refine ⟨?_, rfl, rfl, rfl, rfl, rfl, rfl, rfl, rfl⟩
  unfold compression_type_validator
  split_ifs with h1 h2 h3 h4 h5 h6 h7 h8 <;> simp_all

/-- C7: the compaction_ratelimit validator accepts exactly the inputs that
`parse_rate_limit` parses successfully into a rate with strictly positive
byte count, and throws a program-options error whenever parsing fails or
the parsed count is zero. -/
theorem c7_compaction_ratelimit_validator_exact
    (parse_rate_limit : String → Option rate_limit_t) (val : String)
    (r : rate_limit_t) :
    compaction_ratelimit_validator parse_rate_limit val = Except.ok r
      ↔ (parse_rate_limit val = some r ∧ 0 < r.first) := by
  unfold compaction_ratelimit_validator
  cases hp : parse_rate_limit val with
  | none => simp
  | some q =>
    by_cases hq : q.first = 0
    · simp only [if_pos hq]
      constructor
      · intro h
        exact absurd h (by simp)
      · rintro ⟨he, hpos⟩
        cases he
        omega
    · simp only [if_neg hq]
      constructor
      · intro h
        cases h
        exact ⟨rfl, Nat.pos_of_ne_zero hq⟩
      · rintro ⟨he, _⟩
        cases he
        rfl

/-- C9: the num_metadata_locks setting defaults to 256 and its validator
`parse_positive<ssize_t>()` accepts exactly the strictly positive values,
rejecting zero and negative inputs. -/
theorem c9_num_metadata_locks_default_and_validator (v : Int) :
    num_metadata_locks_default = 256
    ∧ ((∃ r, parse_positive v = Except.ok r) ↔ 0 < v) := by
  refine ⟨rfl, ?_⟩
  unfold parse_positive
  by_cases h : 0 < v
  · simp [h]
  · simp [h]

/-- Counterexample for C2: two settings values that differ in block size,
cache size and bloom bits produce the very same `rocksdb::Options`, so no
field of the returned Options can equal those settings — `toRocksDBOptions`
does not translate them (`rocksdb::Options` has no such members; they belong
to the table options built elsewhere). -/
theorem c2_counterexample_block_cache_bloom_not_translated :
    settingsA.block_size_ ≠ settingsB.block_size_
    ∧ settingsA.cache_size_ ≠ settingsB.cache_size_
    ∧ settingsA.bloom_bits_per_key_ ≠ settingsB.bloom_bits_per_key_
    ∧ settingsA.toRocksDBOptions = settingsB.toRocksDBOptions :=
  ⟨by decide, by decide, by decide, rfl⟩

/-- C2 amended: `toRocksDBOptions` translates the compaction style, the
compression type and the parallelism knobs (max_background_compactions,
max_background_flushes) into the returned `rocksdb::Options`; the block
size, cache size and bloom-bits knobs are not part of the returned Options
at all — the result is invariant under changing them. -/
theorem c2_toRocksDBOptions_translated_knobs (s : RocksDBSettings) :
    s.toRocksDBOptions.compaction_style = s.compaction_style
    ∧ s.toRocksDBOptions.compression = s.compression
    ∧ s.toRocksDBOptions.max_background_compactions
        = s.max_background_compactions
    ∧ s.toRocksDBOptions.max_background_flushes = s.max_background_flushes
    ∧ (∀ bs cs bb : Int,
        ({ s with
            block_size_ := bs
            cache_size_ := cs
            bloom_bits_per_key_ := bb } : RocksDBSettings).toRocksDBOptions
          = s.toRocksDBOptions) :=
  ⟨rfl, rfl, rfl, rfl, fun _ _ _ => rfl⟩

theorem findNode_eq_some_iff (nodes : List (Nat × Node)) (id : Nat)
    (v : Node) (nd : (nodes.map Prod.fst).Nodup) :
    findNode nodes id = some v ↔ (id, v) ∈ nodes := by
  induction nodes with
  | nil => simp [findNode]
  | cons hd tl ih =>
    obtain ⟨k, w⟩ := hd
    rw [List.map_cons, List.nodup_cons] at nd
    by_cases hk : k = id
    · subst hk
      constructor
      · intro h
        simp only [findNode, if_true, eq_self_iff_true,
          Option.some.injEq] at h
        subst h
        exact List.mem_cons_self _ _
      · intro h
        rcases List.mem_cons.mp h with heq | hmem
        · have hvw : v = w := by
            simpa using congrArg Prod.snd heq
          simp [findNode, hvw]
        · exact absurd (List.mem_map_of_mem Prod.fst hmem) nd.1
    · rw [show findNode ((k, w) :: tl) id = findNode tl id by
        simp [findNode, hk]]
      rw [ih nd.2]
      constructor
      · exact fun h => List.mem_cons_of_mem _ h
      · intro h
        rcases List.mem_cons.mp h with heq | hmem
        · exact absurd (by simpa using (congrArg Prod.fst heq).symm) hk
        · exact hmem

theorem findNode_eq_none_iff (nodes : List (Nat × Node)) (id : Nat) :
    findNode nodes id = none ↔ id ∉ nodes.map Prod.fst := by
  induction nodes with
  | nil => simp [findNode]
  | cons hd tl ih =>
    obtain ⟨k, w⟩ := hd
    by_cases hk : k = id
    · subst hk
      simp [findNode]
    · rw [show findNode ((k, w) :: tl) id = findNode tl id by
        simp [findNode, hk]]
      rw [ih]
      simp only [List.map_cons, List.mem_cons]
      constructor
      · intro h hc
        rcases hc with h1 | h2
        · exact hk h1.symm
        · exact h h2
      · intro h hc
        exact h (Or.inr hc)

theorem findNode_perm_eq (l1 l2 : List (Nat × Node)) (id : Nat)
    (hperm : l1.Perm l2) (nd : (l1.map Prod.fst).Nodup) :
    findNode l1 id = findNode l2 id := by
  have nd2 : (l2.map Prod.fst).Nodup := (hperm.map Prod.fst).nodup_iff.mp nd
  cases hf : findNode l1 id with
  | some v =>
    have hm : (id, v) ∈ l1 := (findNode_eq_some_iff l1 id v nd).mp hf
    exact ((findNode_eq_some_iff l2 id v nd2).mpr
      (hperm.mem_iff.mp hm)).symm
  | none =>
    have hm : id ∉ l1.map Prod.fst := (findNode_eq_none_iff l1 id).mp hf
    have hm2 : id ∉ l2.map Prod.fst := fun hc =>
      hm ((hperm.map Prod.fst).mem_iff.mpr hc)
    exact ((findNode_eq_none_iff l2 id).mpr hm2).symm

theorem sortedIds_perm_eq (l1 l2 : List (Nat × Node))
    (hperm : l1.Perm l2) :
    List.insertionSort (· ≤ ·) (l1.map Prod.fst)
      = List.insertionSort (· ≤ ·) (l2.map Prod.fst) := by
  have hperm2 :
      (List.insertionSort (· ≤ ·) (l1.map Prod.fst)).Perm
        (List.insertionSort (· ≤ ·) (l2.map Prod.fst)) :=
    (List.perm_insertionSort _ _).trans
      ((hperm.map Prod.fst).trans (List.perm_insertionSort _ _).symm)
  exact List.eq_of_perm_of_sorted hperm2 (List.sorted_insertionSort _ _)
    (List.sorted_insertionSort _ _)

/-- C6: `NodesConfig::calculateHash` is independent of the iteration order
of the nodes map: any two association lists with distinct node ids that are
permutations of each other (same node id to attributes associations) build
identical hashable byte strings — the node ids are sorted first — and hence
the same 64-bit hash, whatever hash function the substrate applies. -/
theorem c6_calculateHash_order_independent (H : List Nat → Nat)
    (l1 l2 : List (Nat × Node)) (nd : (l1.map Prod.fst).Nodup)
    (hperm : l1.Perm l2) :
    calculateHash H l1 = calculateHash H l2 := by
  unfold calculateHash hashableString
  have hid := sortedIds_perm_eq l1 l2 hperm
  rw [← hid]
  have hf : ∀ id, findNode l1 id = findNode l2 id := fun id =>
    findNode_perm_eq l1 l2 id hperm nd
  simp only [hf]

/-- Witness for C6 on two-node maps listed in the two possible iteration
orders. -/
theorem c6_calculateHash_order_independent_witness :
    ((([(2, nodeExampleA), (1, nodeExampleB)] : List (Nat × Node)).map
        Prod.fst).Nodup
      ∧ ([(2, nodeExampleA), (1, nodeExampleB)] : List (Nat × Node)).Perm
          [(1, nodeExampleB), (2, nodeExampleA)])
    ∧ calculateHash (fun bs => bs.length)
          [(2, nodeExampleA), (1, nodeExampleB)]
        = calculateHash (fun bs => bs.length)
          [(1, nodeExampleB), (2, nodeExampleA)] :=
  ⟨⟨by decide, List.Perm.swap _ _ _⟩,
    c6_calculateHash_order_independent (fun bs => bs.length) _ _
      (by decide) (List.Perm.swap _ _ _)⟩

/-- C8: `COPYSET_INLINE_DEFAULT` is 6, `copyset_t` is the small-vector
instantiation at ShardID with inline capacity 6, and such a copyset falls
back to heap allocation exactly when it holds more than 6 elements. -/
theorem c8_copyset_inline_capacity :
    COPYSET_INLINE_DEFAULT = 6
    ∧ copyset_t = small_vector ShardID 6
    ∧ (∀ v : copyset_t, v.usesHeap = true ↔ 6 < v.data.length) := by
  refine ⟨rfl, rfl, fun v => ?_⟩
  simp [small_vector.usesHeap, COPYSET_INLINE_DEFAULT]

end LogDevice
